import Mathlib

/-!
Verification of the geometric core of the Nearest Analysis QGIS plugin
(`Nearest_Analysis.py`).  Python floats are modelled by exact ordered
fields (`ℚ` for executable evaluation, `ℝ` where trigonometry is needed);
external library calls (shapely, geopandas, pyproj, requests) are modelled
by explicit oracle parameters, while every piece of control flow and
arithmetic written in the plugin itself is translated directly from the
source.
-/

namespace NearestAnalysis

/-- A planar point, modelling a shapely point through its `x`/`y`
coordinates (`p.x`, `p.y` in the source). -/
structure Pt (α : Type) where
  x : α
  y : α
deriving DecidableEq, Repr

/-- The eight compass labels, from `azimuth_to_dir`:
`dirs8 = ["N", "NE", "E", "SE", "S", "SW", "W", "NW"]`. -/
def dirs8 : List String := ["N", "NE", "E", "SE", "S", "SW", "W", "NW"]

/-- The index computation of `azimuth_to_dir`:
`idx = int((deg + 22.5) // 45) % 8`.  Python `//` on reals is `Int.floor`
of the quotient, and Python `%` on integers with positive modulus agrees
with `Int.emod` (result in `[0, 8)`). -/
def dir_index {α : Type} [LinearOrderedField α] [FloorRing α] (deg : α) : ℕ :=
  (⌊(deg + 22.5) / 45⌋ % 8).toNat

/-- `azimuth_to_dir(deg)` from `run_analysis` (lines 399-402):
`return dirs8[idx]`.  The index is provably in range (see
`dir_index_lt_eight`), so the `getD` default is never taken. -/
def azimuth_to_dir {α : Type} [LinearOrderedField α] [FloorRing α] (deg : α) : String :=
  dirs8.getD (dir_index deg) ""

/-- Python `a % m` on reals: `a - m * (a // m)` where `//` floors the
quotient.  Used to model `(angle_deg + 360) % 360` in
`azimuth_geographic`. -/
def pymod {α : Type} [LinearOrderedField α] [FloorRing α] (a m : α) : α :=
  a - m * ⌊a / m⌋

theorem dir_index_lt_eight {α : Type} [LinearOrderedField α] [FloorRing α]
    (deg : α) : dir_index deg < 8 := by
  unfold dir_index
  have h0 : 0 ≤ ⌊(deg + 22.5) / 45⌋ % 8 :=
    Int.emod_nonneg _ (by decide)
  have h8 : ⌊(deg + 22.5) / 45⌋ % 8 < 8 :=
    Int.emod_lt_of_pos _ (by decide)
  omega

theorem azimuth_to_dir_mem {α : Type} [LinearOrderedField α] [FloorRing α]
    (deg : α) : azimuth_to_dir deg ∈ dirs8 := by
  unfold azimuth_to_dir
  have h := dir_index_lt_eight deg
  generalize dir_index deg = i at h
  interval_cases i <;> decide

theorem azimuth_to_dir_sub_int_mul {α : Type} [LinearOrderedField α] [FloorRing α]
    (deg : α) (n : ℤ) : azimuth_to_dir (deg - 360 * n) = azimuth_to_dir deg := by
  unfold azimuth_to_dir dir_index
  have hq : (deg - 360 * (n : α) + 22.5) / 45 = (deg + 22.5) / 45 - ((8 * n : ℤ) : α) := by
    push_cast
    ring
  rw [hq, Int.floor_sub_int]
  have hsub : ⌊(deg + 22.5) / 45⌋ - 8 * n = ⌊(deg + 22.5) / 45⌋ + 8 * (-n) := by
    ring
  rw [hsub, Int.add_mul_emod_self_left]

theorem azimuth_to_dir_zero : azimuth_to_dir (0 : ℚ) = "N" := by
  unfold azimuth_to_dir dir_index
  norm_num [dirs8]

/-- C3: the bearing label is obtained from the bearing in degrees by
`index = floor((degrees + 22.5) / 45) mod 8` into
`[N, NE, E, SE, S, SW, W, NW]`; in particular `0 ↦ "N"`, `22.4 ↦ "N"`,
`22.6 ↦ "NE"`, `67.5 ↦ "E"` and `359.9 ↦ "N"`. -/
theorem azimuth_to_dir_spec :
    (∀ deg : ℚ, azimuth_to_dir deg = dirs8.getD ((⌊(deg + 22.5) / 45⌋ % 8).toNat) "") ∧
    azimuth_to_dir (0 : ℚ) = "N" ∧
    azimuth_to_dir (22.4 : ℚ) = "N" ∧
    azimuth_to_dir (22.6 : ℚ) = "NE" ∧
    azimuth_to_dir (67.5 : ℚ) = "E" ∧
    azimuth_to_dir (359.9 : ℚ) = "N" := by
  refine ⟨fun deg => rfl, azimuth_to_dir_zero, ?_, ?_, ?_, ?_⟩ <;>
    · unfold azimuth_to_dir dir_index
      norm_num [dirs8]
      all_goals decide

/-- C10: the bearing-label mapping is total and 360-periodic: every degree
value (negative or at least 360 included) is sent to one of the eight
compass labels, and the label agrees with the one of the input reduced
modulo 360 by Python floor-division and modulo semantics; for example
`-30` maps to `"NW"` exactly like `330` does. -/
theorem azimuth_to_dir_total_periodic :
    (∀ deg : ℚ, azimuth_to_dir deg ∈ dirs8 ∧
      azimuth_to_dir deg = azimuth_to_dir (pymod deg 360)) ∧
    azimuth_to_dir (-30 : ℚ) = "NW" ∧
    azimuth_to_dir (330 : ℚ) = "NW" := by
  refine ⟨fun deg => ⟨azimuth_to_dir_mem deg, ?_⟩, ?_, ?_⟩
  · unfold pymod
    exact (azimuth_to_dir_sub_int_mul deg ⌊deg / 360⌋).symm
  · unfold azimuth_to_dir dir_index
    norm_num [dirs8]
    all_goals decide
  · unfold azimuth_to_dir dir_index
    norm_num [dirs8]
    all_goals decide

/-- Python `math.atan2 y x`: the angle of the plane vector `(x, y)`,
in `(-π, π]`, realized by the complex argument of `x + y i`. -/
noncomputable def atan2 (y x : ℝ) : ℝ :=
  Complex.arg { re := x, im := y }

/-- Python `math.degrees`: radians to degrees. -/
noncomputable def math_degrees (r : ℝ) : ℝ :=
  r * 180 / Real.pi

/-- `azimuth_geographic(p1, p2)` from `run_analysis` (lines 404-409):
`dx = p2.x - p1.x; dy = p2.y - p1.y;`
`angle_deg = math.degrees(math.atan2(dx, dy));`
`return (angle_deg + 360) % 360`. -/
noncomputable def azimuth_geographic (p1 p2 : Pt ℝ) : ℝ :=
  let dx := p2.x - p1.x
  let dy := p2.y - p1.y
  let angle_deg := math_degrees (atan2 dx dy)
  pymod (angle_deg + 360) 360

theorem pymod_eq_mul_fract {α : Type} [LinearOrderedField α] [FloorRing α]
    (a m : α) (hm : m ≠ 0) : pymod a m = m * Int.fract (a / m) := by
  unfold pymod
  rw [Int.fract, mul_sub, ← mul_div_assoc, mul_div_cancel_left₀ a hm]

theorem pymod_nonneg {α : Type} [LinearOrderedField α] [FloorRing α]
    (a m : α) (hm : 0 < m) : 0 ≤ pymod a m := by
  rw [pymod_eq_mul_fract a m hm.ne.symm]
  exact mul_nonneg hm.le (Int.fract_nonneg _)

theorem pymod_lt {α : Type} [LinearOrderedField α] [FloorRing α]
    (a m : α) (hm : 0 < m) : pymod a m < m := by
  rw [pymod_eq_mul_fract a m hm.ne.symm]
  calc m * Int.fract (a / m) < m * 1 :=
        (mul_lt_mul_left hm).mpr (Int.fract_lt_one _)
    _ = m := mul_one m

/-- C2: for any centroid and nearest boundary point, the bearing computed
by `azimuth_geographic` is `atan2(P.x - centroid.x, P.y - centroid.y)`
converted to degrees and normalized by adding 360 and taking Python
modulo 360, and the result always lies in `[0, 360)`. -/
theorem azimuth_geographic_spec (p1 p2 : Pt ℝ) :
    azimuth_geographic p1 p2 =
      pymod (math_degrees (atan2 (p2.x - p1.x) (p2.y - p1.y)) + 360) 360 ∧
    0 ≤ azimuth_geographic p1 p2 ∧ azimuth_geographic p1 p2 < 360 := by
  refine ⟨rfl, ?_, ?_⟩
  · exact pymod_nonneg _ 360 (by norm_num)
  · exact pymod_lt _ 360 (by norm_num)

/-- A GeoDataFrame, reduced to what `_to_metric_gdf` inspects: its
coordinate reference system (identified by its EPSG code, `none` when the
frame has no CRS) and its geometries.  `G` abstracts shapely geometry
objects. -/
structure GDF (G : Type) where
  crs : Option ℤ
  geoms : List G
deriving DecidableEq

/-- geopandas `gdf.set_crs(epsg = e)`: declares the CRS without touching
the geometries.  For the fixed, valid code 4326 used by the source this
call cannot fail, so the dead `except` branch of `_to_metric_gdf`
(lines 104-106) has no counterpart here. -/
def set_crs {G : Type} (gdf : GDF G) (epsg : ℤ) : GDF G :=
  { gdf with crs := some epsg }

/-- geopandas `gdf.to_crs(epsg = e)`, with `reproject src dst` the external
pyproj coordinate transform applied to one geometry.  Between the two
built-in codes 4326 and 29903 used by the source the transform is total
(pyproj yields out-of-domain markers rather than raising), so the `except`
branch of lines 115-117 has no counterpart here; `to_crs` on a frame with
no CRS raises in geopandas and is unreachable from `_to_metric_gdf`, so it
is modelled as the identity. -/
def to_crs {G : Type} (reproject : ℤ → ℤ → G → G) (gdf : GDF G) (epsg : ℤ) : GDF G :=
  match gdf.crs with
  | none => gdf
  | some src => { crs := some epsg, geoms := gdf.geoms.map (reproject src epsg) }

/-- The shared tail of `_to_metric_gdf` (lines 108-117): compare the
declared or assumed EPSG code against 29903, reproject when it differs.
Returns `((gdf_29903, changed, original_crs), log_lines)`. -/
def to_metric_step {G : Type} (reproject : ℤ → ℤ → G → G) (g : GDF G)
    (orig : ℤ) (logs : List String) : (GDF G × Bool × Option ℤ) × List String :=
  if orig ≠ 29903 then
    ((to_crs reproject g 29903, true, some orig),
      logs ++ ["Reprojected layer to EPSG:29903 (Irish Grid)."])
  else
    ((g, false, some orig), logs)

/-- `_to_metric_gdf` (lines 93-117): when the CRS is missing, assume
EPSG:4326 and log that assumption, then normalize to EPSG:29903. -/
def to_metric_gdf {G : Type} (reproject : ℤ → ℤ → G → G) (gdf : GDF G) :
    (GDF G × Bool × Option ℤ) × List String :=
  match gdf.crs with
  | none =>
      to_metric_step reproject (set_crs gdf 4326) 4326
        ["Layer has no CRS; assumed EPSG:4326."]
  | some c => to_metric_step reproject gdf c []

/-- C6: a collection with no declared reference system is first assigned
EPSG:4326 (the assumption being recorded in the log), and the normalized
output is in EPSG:29903. -/
theorem to_metric_gdf_default_crs {G : Type} (reproject : ℤ → ℤ → G → G)
    (gdf : GDF G) (h : gdf.crs = none) :
    (to_metric_gdf reproject gdf).1.1.crs = some 29903 ∧
    (to_metric_gdf reproject gdf).1.2.2 = some 4326 ∧
    "Layer has no CRS; assumed EPSG:4326." ∈ (to_metric_gdf reproject gdf).2 := by
  simp [to_metric_gdf, h, to_metric_step, to_crs, set_crs]

/-- Closed witness for `to_metric_gdf_default_crs` at a concrete
one-geometry frame with no CRS. -/
theorem to_metric_gdf_default_crs_witness :
    (GDF.mk (G := Unit) none [()]).crs = none ∧
    ((to_metric_gdf (fun _ _ g => g) (GDF.mk (G := Unit) none [()])).1.1.crs = some 29903 ∧
     (to_metric_gdf (fun _ _ g => g) (GDF.mk (G := Unit) none [()])).1.2.2 = some 4326 ∧
     "Layer has no CRS; assumed EPSG:4326." ∈
       (to_metric_gdf (fun _ _ g => g) (GDF.mk (G := Unit) none [()])).2) :=
  ⟨rfl, to_metric_gdf_default_crs (fun _ _ g => g) (GDF.mk none [()]) rfl⟩

/-- C7: a collection already in EPSG:29903 is returned unchanged, with
`was_reprojected = false`, its original CRS reported, and nothing logged. -/
theorem to_metric_gdf_idempotent {G : Type} (reproject : ℤ → ℤ → G → G)
    (gdf : GDF G) (h : gdf.crs = some 29903) :
    to_metric_gdf reproject gdf = ((gdf, false, some 29903), []) := by
  simp [to_metric_gdf, h, to_metric_step]

/-- Closed witness for `to_metric_gdf_idempotent` at a concrete
one-geometry frame already in EPSG:29903. -/
theorem to_metric_gdf_idempotent_witness :
    (GDF.mk (G := Unit) (some 29903) [()]).crs = some 29903 ∧
    to_metric_gdf (fun _ _ g => g) (GDF.mk (G := Unit) (some 29903) [()]) =
      ((GDF.mk (some 29903) [()], false, some 29903), []) :=
  ⟨rfl, to_metric_gdf_idempotent (fun _ _ g => g) (GDF.mk (some 29903) [()]) rfl⟩

/-- One remote feature: its attribute columns in dataframe order (the
geometry column is held separately, mirroring the
`{**props, "geometry": geom}` construction of `run_prestep`). -/
structure Feature (G : Type) where
  attrs : List (String × String)
  geom : G
deriving DecidableEq

/-- One row of `result_gdf` after lines 411-422 of `run_analysis`: the
feature together with the three computed columns `Distance_m`,
`Direction (°)` (rounded) and `Direction`. -/
structure Row (G α : Type) where
  feat : Feature G
  dist : α
  dirdeg : α
  dir : String
deriving DecidableEq

/-- The shapely geometry operations `run_analysis` calls, as oracles:
`a.intersects(b)`, `nearest_points(g, app_union.boundary)[1]` and
`g.distance(p)`. -/
structure GeomApi (G α : Type) where
  intersects : G → G → Bool
  nearest_on_boundary : G → Pt α
  distance_to : G → Pt α → α

/-- The inputs `run_analysis` reads from the dialog state: the two layer
selections, the cached prefiltered frame for the selected pair, the
application-area centroid `app_union.centroid` and buffer
`app_union.buffer(100000)`, the selected attribute fields, and the result
of the save-file dialog (`none` models a cancelled dialog). -/
structure RunInput (G α : Type) where
  app_index : ℤ
  api_name : String
  pre_gdf : Option (List (Feature G))
  app_centroid : Pt α
  user_buffer : G
  selected_fields : List String
  output_csv : Option String

/-- The observable outcome of one `run_analysis` call:
`warn_select` = the "Please select both layers." warning box,
`warn_empty_pre` = the "Preprocessed data is empty." warning box,
`info_no_results` = the informational "No features found within the
100 km buffer." box, `cancelled` = the user dismissed the save dialog,
`exported cols r` = the CSV was written with header `cols` from row `r`. -/
inductive RunResult (G α : Type) where
  | warn_select
  | warn_empty_pre
  | info_no_results
  | cancelled
  | exported (export_cols : List String) (r : Row G α)
deriving DecidableEq

instance {G α : Type} [LinearOrder α] :
    DecidableRel fun (a b : Row G α) => a.dist ≤ b.dist :=
  fun a b => inferInstanceAs (Decidable (a.dist ≤ b.dist))

/-- pandas `result_gdf.sort_values("Distance_m", ascending=True)` as an
executable stand-in: a sort of the rows by ascending distance.  The
actual pandas call uses the default kind `quicksort`; its full contract
is `SortValuesSpec` below, which this function satisfies
(`sort_values_spec`). -/
def sort_values {G α : Type} [LinearOrder α] (rows : List (Row G α)) : List (Row G α) :=
  rows.insertionSort fun a b => a.dist ≤ b.dist

/-- Everything pandas guarantees of
`sort_values("Distance_m", ascending=True)` with the default
`kind="quicksort"`: the output is a permutation of the input, sorted by
ascending distance.  pandas documents only `mergesort`/`stable` as stable
kinds, so nothing constrains the relative order of rows with equal
distance. -/
def SortValuesSpec {G α : Type} [LinearOrder α] (rows out : List (Row G α)) : Prop :=
  rows.Perm out ∧ out.Sorted fun a b => a.dist ≤ b.dist

instance {G α : Type} [LinearOrder α] :
    IsTotal (Row G α) fun a b => a.dist ≤ b.dist :=
  ⟨fun a b => le_total a.dist b.dist⟩

instance {G α : Type} [LinearOrder α] :
    IsTrans (Row G α) fun a b => a.dist ≤ b.dist :=
  ⟨fun _ _ _ hab hbc => le_trans hab hbc⟩

theorem sort_values_spec {G α : Type} [LinearOrder α] (rows : List (Row G α)) :
    SortValuesSpec rows (sort_values rows) :=
  ⟨(List.perm_insertionSort _ rows).symm, List.sorted_insertionSort _ rows⟩

/-- Modelled from the claim: the candidate that appears first in input
order among those of minimal distance. -/
def firstMinByDist {G α : Type} [LinearOrder α] (rows : List (Row G α)) :
    Option (Row G α) :=
  rows.find? fun r => rows.all fun s => r.dist ≤ s.dist

/-- The body of the per-candidate loop of `run_analysis` (lines 411-418):
`nearest_pt_on_app = nearest_points(geom, app_union.boundary)[1]`,
`dist = geom.distance(nearest_pt_on_app)`,
`angle = azimuth_geographic(app_centroid, nearest_pt_on_app)`, the angle
column rounded to two decimals (`round2` models Python `round(_, 2)`) and
the label from the unrounded angle. -/
def compute_row {G α : Type} [LinearOrderedField α] [FloorRing α]
    (api : GeomApi G α) (az : Pt α → Pt α → α) (round2 : α → α)
    (centroid : Pt α) (f : Feature G) : Row G α :=
  { feat := f
    dist := api.distance_to f.geom (api.nearest_on_boundary f.geom)
    dirdeg := round2 (az centroid (api.nearest_on_boundary f.geom))
    dir := azimuth_to_dir (az centroid (api.nearest_on_boundary f.geom)) }

/-- The dataframe columns of `result_gdf` at line 430: the attribute
columns, the geometry column, then the three columns appended at
lines 420-422. -/
def result_columns {G α : Type} (r : Row G α) : List String :=
  r.feat.attrs.map Prod.fst ++ ["geometry", "Distance_m", "Direction (°)", "Direction"]

/-- Lines 428-431 of `run_analysis`: when no fields are selected, fall
back to every dataframe column except `geometry`, then append the three
computed column names. -/
def export_columns (selected_fields columns : List String) : List String :=
  (if selected_fields.isEmpty then columns.filter fun c => c ≠ "geometry"
   else selected_fields) ++ ["Distance_m", "Direction (°)", "Direction"]

/-- The tail of `run_analysis` after the sort (lines 425-441):
`head(1)` keeps the first sorted row, the export columns are assembled,
and the save dialog decides between cancellation and the CSV write.  An
empty sorted frame cannot reach this point in the source (the emptiness
of `result_gdf` was tested at line 394); it is mapped to the same
informational outcome. -/
def select_and_export {G α : Type} (selected_fields : List String)
    (output_csv : Option String) (sorted : List (Row G α)) : RunResult G α :=
  match sorted with
  | [] => .info_no_results
  | r :: _ =>
    match output_csv with
    | none => .cancelled
    | some _ => .exported (export_columns selected_fields (result_columns r)) r

/-- `run_analysis` (lines 366-441, up to the CSV export; the plotting
tail has no observable outcome beyond the figure window).  `az` stands
for `azimuth_geographic` — at `α = ℝ` it is instantiated with the real
one — and `round2` for Python `round(_, 2)`. -/
def run_analysis {G α : Type} [LinearOrderedField α] [FloorRing α]
    (api : GeomApi G α) (az : Pt α → Pt α → α) (round2 : α → α)
    (inp : RunInput G α) : RunResult G α :=
  if inp.app_index < 0 ∨ inp.api_name = "" then .warn_select
  else
    match inp.pre_gdf with
    | none => .warn_empty_pre
    | some pre =>
      if pre.isEmpty then .warn_empty_pre
      else
        if (pre.filter fun f => api.intersects f.geom inp.user_buffer).isEmpty then
          .info_no_results
        else
          select_and_export inp.selected_fields inp.output_csv
            (sort_values ((pre.filter fun f => api.intersects f.geom inp.user_buffer).map
              (compute_row api az round2 inp.app_centroid)))

/-- C4: when no prefiltered feature intersects the 100 km buffer, the run
ends with the informational "No Results" message — no exported row, no
error box, no exception (the embedding is a total function whose outcome
in this case is exactly `info_no_results`). -/
theorem run_analysis_empty_candidates {G α : Type} [LinearOrderedField α] [FloorRing α]
    (api : GeomApi G α) (az : Pt α → Pt α → α) (round2 : α → α) (inp : RunInput G α)
    (pre : List (Feature G))
    (hsel : ¬(inp.app_index < 0 ∨ inp.api_name = ""))
    (hpre : inp.pre_gdf = some pre) (hne : pre.isEmpty = false)
    (hfil : (pre.filter fun f => api.intersects f.geom inp.user_buffer).isEmpty = true) :
    run_analysis api az round2 inp = .info_no_results := by
  simp [run_analysis, hsel, hpre, hne, hfil]

/-- Closed witness for `run_analysis_empty_candidates`: one cached
feature, an intersection test that rejects it. -/
theorem run_analysis_empty_candidates_witness :
    run_analysis (G := Unit) (α := ℚ)
      ⟨fun _ _ => false, fun _ => ⟨0, 0⟩, fun _ _ => 0⟩ (fun _ _ => 0) id
      ⟨0, "api", some [⟨[("name", "X")], ()⟩], ⟨0, 0⟩, (), [], some "out.csv"⟩ =
      .info_no_results :=
  run_analysis_empty_candidates _ _ _ _ [⟨[("name", "X")], ()⟩]
    (by decide) rfl rfl rfl

/-- C1 cannot hold as stated: the pandas contract `SortValuesSpec` (the
default `quicksort` kind is not stable) admits a sorted permutation of two
equally distant candidates whose head is the second candidate, not the
first-in-input-order one that `firstMinByDist` picks. -/
theorem sort_values_head_not_first_min :
    ¬ ∀ (rows out : List (Row Unit ℚ)), SortValuesSpec rows out →
        out.head? = firstMinByDist rows := by
  intro hclaim
  have h := hclaim
    [⟨⟨[("id", "0")], ()⟩, 10, 0, "N"⟩, ⟨⟨[("id", "1")], ()⟩, 10, 0, "N"⟩]
    [⟨⟨[("id", "1")], ()⟩, 10, 0, "N"⟩, ⟨⟨[("id", "0")], ()⟩, 10, 0, "N"⟩]
    ⟨by decide, by decide⟩
  exact absurd h (by decide)

/-- C1 (amended): the selected head of any sorted permutation of the
candidate rows is a candidate of minimal distance — but, ties being
unconstrained by the unstable default sort, not necessarily the first
such candidate in input order. -/
theorem sort_values_head_min_dist {G α : Type} [LinearOrder α]
    (rows out : List (Row G α)) (hspec : SortValuesSpec rows out) (hne : rows ≠ []) :
    ∃ r, out.head? = some r ∧ r ∈ rows ∧ ∀ s ∈ rows, r.dist ≤ s.dist := by
  obtain ⟨hperm, hsort⟩ := hspec
  cases out with
  | nil => exact absurd hperm.eq_nil hne
  | cons r t =>
    refine ⟨r, rfl, hperm.mem_iff.mpr (List.mem_cons_self r t), fun s hs => ?_⟩
    rcases List.mem_cons.mp (hperm.mem_iff.mp hs) with heq | hmem
    · exact heq ▸ le_refl r.dist
    · exact List.rel_of_sorted_cons hsort s hmem

/-- Closed witness for `sort_values_head_min_dist` on a one-candidate
list sorted into itself. -/
theorem sort_values_head_min_dist_witness :
    ([⟨⟨[("id", "0")], ()⟩, 10, 0, "N"⟩] : List (Row Unit ℚ)) ≠ [] ∧
    ∃ r, ([⟨⟨[("id", "0")], ()⟩, 10, 0, "N"⟩] : List (Row Unit ℚ)).head? = some r ∧
      r ∈ ([⟨⟨[("id", "0")], ()⟩, 10, 0, "N"⟩] : List (Row Unit ℚ)) ∧
      ∀ s ∈ ([⟨⟨[("id", "0")], ()⟩, 10, 0, "N"⟩] : List (Row Unit ℚ)),
        r.dist ≤ s.dist :=
  ⟨by decide,
   sort_values_head_min_dist _ _ ⟨List.Perm.refl _, List.sorted_singleton _⟩ (by decide)⟩

theorem select_and_export_exported_inv {G α : Type} (selected_fields : List String)
    (output_csv : Option String) (sorted : List (Row G α))
    (cols : List String) (r : Row G α)
    (h : select_and_export selected_fields output_csv sorted = .exported cols r) :
    cols = export_columns selected_fields (result_columns r) := by
  cases sorted with
  | nil => cases h
  | cons r0 t =>
    cases output_csv with
    | none => cases h
    | some path =>
      cases h
      rfl

theorem run_analysis_shape {G α : Type} [LinearOrderedField α] [FloorRing α]
    (api : GeomApi G α) (az : Pt α → Pt α → α) (round2 : α → α) (inp : RunInput G α) :
    run_analysis api az round2 inp = .warn_select ∨
    run_analysis api az round2 inp = .warn_empty_pre ∨
    run_analysis api az round2 inp = .info_no_results ∨
    ∃ sorted, run_analysis api az round2 inp =
      select_and_export inp.selected_fields inp.output_csv sorted := by
  unfold run_analysis
  split
  · exact Or.inl rfl
  · split
    · exact Or.inr (Or.inl rfl)
    · split
      · exact Or.inr (Or.inl rfl)
      · split
        · exact Or.inr (Or.inr (Or.inl rfl))
        · exact Or.inr (Or.inr (Or.inr ⟨_, rfl⟩))

theorem run_analysis_exported_inv {G α : Type} [LinearOrderedField α] [FloorRing α]
    (api : GeomApi G α) (az : Pt α → Pt α → α) (round2 : α → α) (inp : RunInput G α)
    (cols : List String) (r : Row G α)
    (h : run_analysis api az round2 inp = .exported cols r) :
    cols = export_columns inp.selected_fields (result_columns r) := by
  rcases run_analysis_shape api az round2 inp with hs | hs | hs | ⟨sorted, hs⟩ <;>
    rw [hs] at h
  · cases h
  · cases h
  · cases h
  · exact select_and_export_exported_inv _ _ _ _ _ h

/-- C5 fails as stated: with no requested attribute subset, the fallback
at line 430 collects every column of `result_gdf` — which at that point
already contains the three computed columns — so line 431 appends
`Distance_m, Direction (°), Direction` a second time.  Concretely, a
candidate with attributes `name, code` exports eight columns, not the
five the claim predicts. -/
theorem run_analysis_no_subset_duplicates_columns :
    run_analysis (G := Unit) (α := ℚ)
      ⟨fun _ _ => true, fun _ => ⟨0, 0⟩, fun _ _ => 0⟩ (fun _ _ => 0) id
      ⟨0, "api", some [⟨[("name", "X"), ("code", "123")], ()⟩], ⟨0, 0⟩, (), [],
        some "out.csv"⟩ =
      .exported
        ["name", "code", "Distance_m", "Direction (°)", "Direction",
         "Distance_m", "Direction (°)", "Direction"]
        ⟨⟨[("name", "X"), ("code", "123")], ()⟩, 0, 0, "N"⟩ ∧
    (["name", "code", "Distance_m", "Direction (°)", "Direction",
      "Distance_m", "Direction (°)", "Direction"] : List String) ≠
      ["name", "code", "Distance_m", "Direction (°)", "Direction"] := by
  refine ⟨?_, by decide⟩
  simp [run_analysis, select_and_export, sort_values, compute_row, export_columns,
    result_columns, azimuth_to_dir_zero]

/-- C5 (amended): the exported header always ends with the three computed
columns; when an attribute subset is requested it is exactly that subset
followed by the three computed columns, and when no subset is requested
it is every original attribute column followed by the three computed
columns twice (the duplication being what the source produces). -/
theorem run_analysis_export_columns {G α : Type} [LinearOrderedField α] [FloorRing α]
    (api : GeomApi G α) (az : Pt α → Pt α → α) (round2 : α → α) (inp : RunInput G α)
    (cols : List String) (r : Row G α)
    (h : run_analysis api az round2 inp = .exported cols r) :
    (inp.selected_fields = [] → "geometry" ∉ r.feat.attrs.map Prod.fst →
        cols = r.feat.attrs.map Prod.fst
          ++ ["Distance_m", "Direction (°)", "Direction"]
          ++ ["Distance_m", "Direction (°)", "Direction"]) ∧
    (inp.selected_fields ≠ [] →
        cols = inp.selected_fields ++ ["Distance_m", "Direction (°)", "Direction"]) := by
  have hcols := run_analysis_exported_inv api az round2 inp cols r h
  subst hcols
  constructor
  · intro hsel hgeom
    simp only [export_columns, result_columns, hsel, List.isEmpty_nil, if_pos]
    rw [List.filter_append]
    have h1 : (r.feat.attrs.map Prod.fst).filter (fun c => c ≠ "geometry") =
        r.feat.attrs.map Prod.fst :=
      List.filter_eq_self.mpr fun a ha => by
        have hne : a ≠ "geometry" := fun heq => hgeom (heq ▸ ha)
        simp [hne]
    have h2 : (["geometry", "Distance_m", "Direction (°)", "Direction"] :
        List String).filter (fun c => c ≠ "geometry") =
        ["Distance_m", "Direction (°)", "Direction"] := by decide
    rw [h1, h2, List.append_assoc]
  · intro hsel
    simp [export_columns, hsel, List.isEmpty_iff]

/-- Closed witness for `run_analysis_export_columns`: the subset
`["name"]` on a candidate with attributes `name, code` exports exactly
`name, Distance_m, Direction (°), Direction`. -/
theorem run_analysis_export_columns_witness :
    (["name"] : List String) ≠ [] ∧
    (["name", "Distance_m", "Direction (°)", "Direction"] : List String) =
      ["name"] ++ ["Distance_m", "Direction (°)", "Direction"] :=
  ⟨by decide,
   (run_analysis_export_columns (G := Unit) (α := ℚ)
      ⟨fun _ _ => true, fun _ => ⟨0, 0⟩, fun _ _ => 0⟩ (fun _ _ => 0) id
      ⟨0, "api", some [⟨[("name", "X"), ("code", "123")], ()⟩], ⟨0, 0⟩, (), ["name"],
        some "out.csv"⟩
      ["name", "Distance_m", "Direction (°)", "Direction"]
      ⟨⟨[("name", "X"), ("code", "123")], ()⟩, 0, 0, "N"⟩
      (by simp [run_analysis, select_and_export, sort_values, compute_row, export_columns,
        result_columns, azimuth_to_dir_zero])).2 (by decide)⟩

/-- The key of `self.api_pre_filtered`: `(api_name, app_index)`. -/
abbrev CacheKey := String × ℤ

/-- The dialog's `api_pre_filtered` dictionary, as an association list
from `(api_name, app_index)` to the prefiltered feature collection. -/
abbrev Cache (G : Type) := List (CacheKey × List (Feature G))

/-- Dictionary lookup in `api_pre_filtered`
(`cache_key in self.api_pre_filtered` / `.get(cache_key)`). -/
def cacheLookup {G : Type} (c : Cache G) (k : CacheKey) : Option (List (Feature G)) :=
  (c.find? fun e => e.1 = k).map Prod.snd

/-- One raw record of an ArcGIS REST GeoJSON response: its geometry and
its `properties`-or-`attributes` mapping (the source accepts either key;
both are modelled by the one mapping carried here). -/
structure ArcFeature (G : Type) where
  geometry : G
  props : List (String × String)
deriving DecidableEq

/-- The outcome of the HTTP exchange of the ArcGIS branch of
`run_prestep`: a parsed feature list, or any raised
network/status/JSON exception. -/
inductive ArcResponse (G : Type) where
  | ok (features : List (ArcFeature G))
  | err
deriving DecidableEq

/-- The observable outcome of the ArcGIS branch of `run_prestep`:
`used_cache` = line 271's "Using cached preprocessed data.",
`stored_count n` = the success log "Found n ArcGIS features within
100 km (EPSG:29903)." with the collection cached, `info_no_features` =
line 340's "No features returned from ArcGIS API." (nothing cached),
`fetch_failed` = the caught exception log of line 355. -/
inductive PrestepResult where
  | used_cache
  | stored_count (n : ℕ)
  | info_no_features
  | fetch_failed
deriving DecidableEq

/-- The ArcGIS (tiled-query) branch of `run_prestep` (lines 259-356,
specialized to a layer whose source matches the FeatureServer/MapServer
pattern): cache check first, then the spatial query modelled by `resp`,
then — on success — the empty-list check of line 339 and the
intersects prefilter and caching of lines 343-352. -/
def run_prestep_arcgis {G : Type} (intersects : G → G → Bool) (buffer : G)
    (cache : Cache G) (key : CacheKey) (resp : ArcResponse G) :
    Cache G × PrestepResult :=
  if (cacheLookup cache key).isSome then (cache, .used_cache)
  else
    match resp with
    | .err => (cache, .fetch_failed)
    | .ok feats =>
      if feats.isEmpty then (cache, .info_no_features)
      else
        ((key, (feats.filter fun f => intersects f.geometry buffer).map
            fun f => ⟨f.props, f.geometry⟩) :: cache,
          .stored_count ((feats.filter fun f => intersects f.geometry buffer).length))

/-- C8 fails as stated: an empty ArcGIS feature list is indeed not an
error (the outcome is the informational log, not `fetch_failed`), but the
fetch does not yield an empty collection — it returns before the caching
line, so no entry at all is stored for the key. -/
theorem run_prestep_arcgis_empty_stores_nothing :
    (run_prestep_arcgis (G := Unit) (fun _ _ => true) () [] ("layer", 0)
        (.ok [])).2 = .info_no_features ∧
    (run_prestep_arcgis (G := Unit) (fun _ _ => true) () [] ("layer", 0)
        (.ok [])).2 ≠ .stored_count 0 ∧
    cacheLookup (run_prestep_arcgis (G := Unit) (fun _ _ => true) () [] ("layer", 0)
        (.ok [])).1 ("layer", 0) = none := by
  refine ⟨rfl, by decide, rfl⟩

/-- C8 (amended): on a cache miss, an empty ArcGIS feature list is not an
error: the step ends with the caller-visible informational message, and
it leaves the cache exactly as it was — in particular no (empty or other)
collection is stored for the key. -/
theorem run_prestep_arcgis_empty_features {G : Type} (intersects : G → G → Bool)
    (buffer : G) (cache : Cache G) (key : CacheKey)
    (hmiss : (cacheLookup cache key).isSome = false) :
    run_prestep_arcgis intersects buffer cache key (.ok []) =
      (cache, .info_no_features) := by
  simp [run_prestep_arcgis, hmiss]

/-- Closed witness for `run_prestep_arcgis_empty_features` on an empty
cache. -/
theorem run_prestep_arcgis_empty_features_witness :
    (cacheLookup (G := Unit) [] ("layer", 0)).isSome = false ∧
    run_prestep_arcgis (G := Unit) (fun _ _ => true) () [] ("layer", 0) (.ok []) =
      ([], .info_no_features) :=
  ⟨rfl, run_prestep_arcgis_empty_features _ _ _ _ rfl⟩

/-- One user-visible event touching `api_pre_filtered`:
`prestep name idx fetched` is a `run_prestep` call for the pair
`(name, idx)` whose fetch — if one happens — succeeds with the
prefiltered collection `fetched`; `populate_layers` is the layer-list
refresh (triggered by the refresh button or by re-opening the dialog),
whose line 128 runs `self.api_pre_filtered.clear()`. -/
inductive Event (G : Type) where
  | prestep (api_name : String) (app_index : ℤ) (fetched : List (Feature G))
  | populate_layers
deriving DecidableEq

/-- Whether processing `e` from cache `c` performs a network call: a
`run_prestep` call does exactly when its key misses the cache
(line 270 returns early on a hit, before any request). -/
def eventNetwork {G : Type} (c : Cache G) : Event G → Bool
  | .prestep name idx _ => (cacheLookup c (name, idx)).isNone
  | .populate_layers => false

/-- The effect of one event on `api_pre_filtered`: a cache-hit
`run_prestep` leaves it unchanged, a cache-miss `run_prestep` stores the
fetched collection under its key, and `populate_layers` clears it. -/
def eventStep {G : Type} (c : Cache G) : Event G → Cache G
  | .prestep name idx fetched =>
      if (cacheLookup c (name, idx)).isSome then c
      else ((name, idx), fetched) :: c
  | .populate_layers => []

/-- Runs a sequence of events on the cache. -/
def execCache {G : Type} (c : Cache G) (evs : List (Event G)) : Cache G :=
  evs.foldl eventStep c

/-- C9 fails as stated: starting from a state in which the pair is
cached, a later request for the same pair can still perform a network
call, because `populate_layers` — reachable within the session through
the refresh button or by re-opening the dialog — clears
`api_pre_filtered` in between. -/
theorem cached_pair_can_refetch :
    ¬ ∀ (c : Cache Unit) (k : CacheKey) (evs : List (Event Unit))
        (fetched : List (Feature Unit)),
        (cacheLookup c k).isSome = true →
        eventNetwork (execCache c evs) (.prestep k.1 k.2 fetched) = false := by
  intro hclaim
  have h := hclaim [(("layer", 0), [])] ("layer", 0) [.populate_layers] [] rfl
  exact absurd h (by decide)

theorem cacheLookup_preserved {G : Type} (k : CacheKey) :
    ∀ (evs : List (Event G)) (c : Cache G),
      (cacheLookup c k).isSome = true →
      (∀ e ∈ evs, e ≠ Event.populate_layers) →
      cacheLookup (execCache c evs) k = cacheLookup c k := by
  intro evs
  induction evs with
  | nil => intro c _ _; rfl
  | cons e t ih =>
    intro c hstored hnoclear
    cases e with
    | populate_layers =>
      exact absurd rfl (hnoclear _ (List.mem_cons_self _ _))
    | prestep name idx fetched =>
      have hstep : cacheLookup (eventStep c (.prestep name idx fetched)) k =
          cacheLookup c k := by
        simp only [eventStep]
        by_cases hhit : (cacheLookup c (name, idx)).isSome
        · rw [if_pos hhit]
        · rw [if_neg hhit]
          unfold cacheLookup
          rw [List.find?_cons]
          have hne : ((name, idx) = k) = False := by
            simp only [eq_iff_iff, iff_false]
            intro heq
            rw [← heq] at hstored
            rw [hstored] at hhit
            exact hhit rfl
          simp [hne]
      have ht : ∀ e ∈ t, e ≠ Event.populate_layers :=
        fun e he => hnoclear e (List.mem_cons_of_mem _ he)
      calc cacheLookup (execCache c (.prestep name idx fetched :: t)) k
          = cacheLookup (execCache (eventStep c (.prestep name idx fetched)) t) k := rfl
        _ = cacheLookup (eventStep c (.prestep name idx fetched)) k :=
            ih _ (by rw [hstep]; exact hstored) ht
        _ = cacheLookup c k := hstep

/-- C9 (amended): once a fetch result is stored for a pair, every
repeated request for that pair performs no network call and still sees
the stored collection — as long as no `populate_layers` (refresh /
dialog re-open) occurs in between, since that clears the cache. -/
theorem cached_pair_no_refetch {G : Type} (c : Cache G) (k : CacheKey)
    (evs : List (Event G)) (fetched : List (Feature G))
    (hstored : (cacheLookup c k).isSome = true)
    (hnoclear : ∀ e ∈ evs, e ≠ Event.populate_layers) :
    eventNetwork (execCache c evs) (.prestep k.1 k.2 fetched) = false ∧
    cacheLookup (execCache c evs) k = cacheLookup c k := by
  have hpres := cacheLookup_preserved k evs c hstored hnoclear
  constructor
  · simp only [eventNetwork]
    rw [Prod.mk.eta, hpres]
    cases hx : cacheLookup c k with
    | none =>
      rw [hx] at hstored
      exact absurd hstored (by simp)
    | some v => rfl
  · exact hpres

/-- Closed witness for `cached_pair_no_refetch`: a cached pair survives
an unrelated `run_prestep` event. -/
theorem cached_pair_no_refetch_witness :
    (cacheLookup (G := Unit) [(("layer", 0), [])] ("layer", 0)).isSome = true ∧
    eventNetwork (execCache [(("layer", 0), [])]
        ([.prestep "other" 1 []] : List (Event Unit)))
      (.prestep "layer" 0 []) = false ∧
    cacheLookup (execCache [(("layer", 0), [])]
        ([.prestep "other" 1 []] : List (Event Unit))) ("layer", 0) =
      cacheLookup [(("layer", 0), [])] ("layer", 0) :=
  ⟨rfl,
   (cached_pair_no_refetch [(("layer", 0), [])] ("layer", 0) _ [] rfl (by decide)).1,
   (cached_pair_no_refetch [(("layer", 0), [])] ("layer", 0) _ [] rfl (by decide)).2⟩

end NearestAnalysis
